import Mathlib

/-!
Verification of the HOA social-media automation script (src/main.py).

The script is a single-threaded orchestration layer over five external
services.  We embed the decision logic shallowly: every external call
(Gemini generation, Facebook posting, Gmail label mutation, the /tmp flag
file) is replaced by an explicit environment value recording the outcome
the service would report, and each workflow is a pure function from that
environment and the current state to the successor state together with
counters or traces of the side-effecting calls it performs.  Python
strings are modelled as Lean String values (sequences of code points;
Python slicing s[:n] is strTake), Python truthiness of a string is
modelled as non-emptiness, and exceptions raised by a service call are
modelled as explicit failure outcomes in the environment.
-/

namespace HOA

/-! ## Text generation with retry (AIContentGenerator.generate, main.py:519) -/

/-- Outcome of one call to the Gemini model: success with text, an error
whose message contains the 429 or Resource-exhausted marker, or any other
error. -/
inductive GenOutcome : Type where
  | success : String → GenOutcome
  | rateLimit : GenOutcome
  | otherFail : GenOutcome

/-- One step of the retry loop of AIContentGenerator.generate.  The fuel
argument counts the iterations remaining in the Python for-loop over
range(maxRetries); attempt is the current loop index.  Returns the
generation result, the number of generation attempts made, and the list
of sleep durations performed (in seconds), in order. -/
def generateLoop (o : Nat → GenOutcome) (maxRetries : Nat) :
    Nat → Nat → Option String × Nat × List Nat
  | _, 0 => (none, 0, [])
  | attempt, fuel + 1 =>
    match o attempt with
    | GenOutcome.success t => (some t, 1, [])
    | GenOutcome.rateLimit =>
      if attempt < maxRetries - 1 then
        let r := generateLoop o maxRetries (attempt + 1) fuel
        (r.1, r.2.1 + 1, 5 * 2 ^ attempt :: r.2.2)
      else (none, 1, [])
    | GenOutcome.otherFail => (none, 1, [])

/-- AIContentGenerator.generate with its default max_retries = 3.  The
environment o gives, for each attempt index, the outcome the model call
would have. -/
def generate (o : Nat → GenOutcome) : Option String × Nat × List Nat :=
  generateLoop o 3 0 3

/-- The exponential backoff schedule 5 * 2 ^ j for the first k sleeps. -/
def backoffSleeps (k : Nat) : List Nat :=
  (List.range k).map (fun j => 5 * 2 ^ j)

/-! ## Approved-sender authorization (Config._parse_approved_senders,
main.py:49, and GmailHandler.is_approved_sender, main.py:197) -/

/-- Python str.strip(): remove leading and trailing whitespace.  Defined
by structural list recursion so that concrete instances evaluate. -/
def pyStrip (s : String) : String :=
  String.mk (((s.toList.dropWhile Char.isWhitespace).reverse.dropWhile
    Char.isWhitespace).reverse)

/-- Config._parse_approved_senders: split the environment value on commas,
drop blank entries, strip and lower-case each remaining entry. -/
def parse_approved_senders (raw : String) : List String :=
  (raw.splitOn (",")).filterMap (fun s =>
    if (pyStrip s).isEmpty then none else some ((pyStrip s).map Char.toLower))

/-- GmailHandler.is_approved_sender.  First component: the returned
boolean.  Second component: whether the empty-configuration warning was
printed. -/
def is_approved_sender (approved : List String) (email : String) : Bool × Bool :=
  if approved.isEmpty then (false, true)
  else (approved.contains (email.map Char.toLower), false)

/-! ## Prompt construction and truncation
(AIContentGenerator.generate_meeting_minutes_post, main.py:561, and
AIContentGenerator.generate_facebook_post, main.py:596) -/

/-- Python string slicing s[:n]: the first n code points of s. -/
def strTake (s : String) (n : Nat) : String :=
  String.mk (s.toList.take n)

/-- The truncation marker appended to over-long meeting-minutes content. -/
def truncMarker : String := "...\n[Content truncated]"

/-- The content-length guard at the top of generate_meeting_minutes_post:
content longer than 8000 characters is cut to its first 8000 characters
with the truncation marker appended; shorter content passes unchanged. -/
def mm_trunc (content : String) : String :=
  if content.length > 8000 then strTake content 8000 ++ truncMarker else content

/-- The content_type tag interpolated into the meeting-minutes prompt. -/
def content_type_tag (is_from_document : Bool) : String :=
  if is_from_document then ("meeting minutes document") else ("email")

/-- The f-string text of the meeting-minutes prompt that precedes the
(possibly truncated) content. -/
def mmHead (subject contentType : String) : String :=
  "Generate a friendly Facebook post for Hallmark HOA announcing meeting minutes are available.\n\nEmail Subject: "
    ++ subject ++ "\nContent from " ++ contentType ++ ":\n"

/-- The f-string text of the meeting-minutes prompt that follows the
content. -/
def mmTail : String :=
  "\n\nRequirements:\n- Announce that meeting minutes are now available\n- Identify and briefly summarize 2-3 of the MOST IMPORTANT topics actually discussed\n- Base your summary ONLY on the content provided - do NOT make up topics\n- If you cannot identify specific topics, just announce minutes are available\n- Warm, professional tone\n- Under 200 words\n- Include call to action encouraging residents to read full minutes\n- Use 1-2 hashtags like #HallmarkHOA\n- 1 emoji maximum\n- Do NOT include a link - it will be added automatically"

/-- The prompt built by generate_meeting_minutes_post. -/
def mm_prompt (subject : String) (is_from_document : Bool) (content : String) : String :=
  mmHead subject (content_type_tag is_from_document) ++ mm_trunc content ++ mmTail

/-- The f-string text of the email-derived post prompt that precedes the
body slice. -/
def fbHead (subject : String) : String :=
  "You are writing a Facebook post for Hallmark HOA based on an email request.\n\nEmail Subject: "
    ++ subject ++ "\nEmail Content:\n"

/-- The f-string text of the email-derived post prompt that follows the
body slice. -/
def fbTail : String :=
  "\n\nRequirements:\n- Transform email content into engaging, friendly Facebook post\n- Keep key information and message\n- Use warm, community-focused tone appropriate for HOA\n- Keep concise (under 300 words)\n- Make it conversational and suitable for social media\n- Use appropriate paragraph breaks\n- Add 1-2 relevant hashtags (like #HallmarkHOA)\n- Use 1-2 emojis maximum if appropriate\n- Do NOT mention this came from an email\n- Write as if HOA is speaking directly to residents"

/-- The prompt built by generate_facebook_post: the body is sliced to its
first 3000 characters, with no marker. -/
def fb_prompt (subject body : String) : String :=
  fbHead subject ++ strTake body 3000 ++ fbTail

/-! ## Message listing (GmailHandler.get_messages, main.py:133) -/

/-- GmailHandler.get_messages.  The Gmail list call returns at most
maxResults of the matching messages (modelled as taking a front segment
of the provider-ordered matching list); a missing service or an error in
the list call yields the empty list. -/
def get_messages (ok : Bool) (matching : List Nat) (maxResults : Nat) : List Nat :=
  if ok then matching.take maxResults else []

/-- The listing call of run_meeting_minutes_workflow (main.py:924): the
max_results argument is omitted, so the default of 5 applies. -/
def meeting_minutes_listing (ok : Bool) (matching : List Nat) : List Nat :=
  get_messages ok matching 5

/-- The listing call of run_facebook_post_workflow (main.py:989): the
max_results argument is omitted, so the default of 5 applies. -/
def post_request_listing (ok : Bool) (matching : List Nat) : List Nat :=
  get_messages ok matching 5

/-! ## Posting with images (FacebookPoster.post_with_images, main.py:692) -/

/-- An image attachment handed to the poster; uid is an opaque identity
used to look up the outcome its upload would have. -/
structure ImageRec where
  filename : String
  uid : Nat
deriving DecidableEq

/-- Trace of the Facebook Graph calls made by one post_with_images
invocation: the uids of the images whose upload was attempted (in order),
the messages of the plain-text feed posts issued, and the combined
message-with-media feed posts issued (message together with the uploaded
photo ids, in order). -/
structure FBTrace where
  uploadsTried : List Nat
  textPosts : List String
  mediaPosts : List (String × List Nat)
deriving DecidableEq

/-- FacebookPoster.post_with_images.  The environment upl gives the photo
id that the individual upload of a given image would return (none for a
failed upload).  Mirrors the source: empty list falls through to
post_text; otherwise the first 10 images are uploaded one by one, failures
skipped; with zero successes the message is posted as plain text; with at
least one success a single combined post references all uploaded ids. -/
def post_with_images (upl : Nat → Option Nat) (message : String)
    (images : List ImageRec) : FBTrace :=
  if images.isEmpty then { uploadsTried := [], textPosts := [message], mediaPosts := [] }
  else
    let tried := images.take 10
    let uploaded := tried.filterMap (fun i => upl i.uid)
    if uploaded.isEmpty then
      { uploadsTried := tried.map (fun i => i.uid), textPosts := [message], mediaPosts := [] }
    else
      { uploadsTried := tried.map (fun i => i.uid), textPosts := [],
        mediaPosts := [(message, uploaded)] }

/-! ## Body extraction (GmailHandler.extract_body, main.py:166) -/

/-- A MIME part of a Gmail message payload: its content type, its decoded
body data (the empty string when the body carries no data, matching the
get-with-default and truthiness test in the source), and its child
parts. -/
inductive MimePart : Type where
  | mk : String → String → List MimePart → MimePart

/-- Content type of a part. -/
def MimePart.mimeType : MimePart → String
  | MimePart.mk t _ _ => t

/-- Decoded body data of a part (empty string when absent). -/
def MimePart.bodyData : MimePart → String
  | MimePart.mk _ d _ => d

/-- Child parts of a part. -/
def MimePart.subparts : MimePart → List MimePart
  | MimePart.mk _ _ ps => ps

/-- The condition under which the loop in extract_body returns a part:
content type equal to text/plain and non-empty (truthy) body data. -/
def plainWithData (p : MimePart) : Bool :=
  (p.mimeType == ("text/plain")) && (p.bodyData != (""))

/-- The for-loop of extract_body: scan the payload's direct child parts
in order, returning the decoded data of the first part whose content type
is text/plain and whose data is non-empty. -/
def firstPlainTop : List MimePart → Option String
  | [] => none
  | p :: ps => if plainWithData p then some p.bodyData else firstPlainTop ps

/-- GmailHandler.extract_body: scan the direct children; if the scan
returns nothing (including when there are no children at all), fall back
to the payload's own body data, which is the empty string when absent. -/
def extract_body (payload : MimePart) : String :=
  match firstPlainTop payload.subparts with
  | some d => d
  | none => payload.bodyData

mutual

/-- Modelled from the spec: pre-order search of a part (the part itself,
then its children left to right) for the first part with content type
text/plain; this full-tree traversal is what the spec describes and is
absent from src/main.py, whose extract_body only scans direct children. -/
def specFirstPlain : MimePart → Option String
  | MimePart.mk t d ps =>
    if t = ("text/plain") then some d else specFirstPlainList ps

/-- Modelled from the spec: pre-order search of a forest of parts. -/
def specFirstPlainList : List MimePart → Option String
  | [] => none
  | p :: ps =>
    match specFirstPlain p with
    | some d => some d
    | none => specFirstPlainList ps

end

/-- Modelled from the spec: body extraction as §4.1 describes it — the
first text/plain part found by a pre-order traversal of the entire part
tree; the single body for a non-multipart message; the empty string when
no text/plain part exists anywhere. -/
def specExtractBody (payload : MimePart) : String :=
  match payload.subparts with
  | [] => payload.bodyData
  | ps => (specFirstPlainList ps).getD ("")

/-! ## Holiday idempotency tracker (HolidayManager, main.py:793, and
HOAPoster.run_holiday_workflow, main.py:883) -/

/-- Outcomes of the external calls one holiday run can make: whether
should_post_holiday reports a major holiday, whether the flag-file
existence check raises, whether writing the flag file raises, the
generation result, and whether the Facebook post call succeeds. -/
structure HolidayEnv where
  shouldPost : Bool
  checkFails : Bool
  markFails : Bool
  genResult : Option String
  postSucceeds : Bool

/-- The per-day flag store: the set of post types whose flag file exists
for the current process-local date. -/
structure TrackerState where
  flags : List String
deriving DecidableEq

/-- HolidayManager.already_posted_today: an exception in the existence
check degrades to False; otherwise report whether the flag for this post
type and today's date exists. -/
def already_posted_today (e : HolidayEnv) (s : TrackerState) (t : String) : Bool :=
  if e.checkFails then false else s.flags.contains t

/-- HolidayManager.mark_posted_today: best effort — a failure to write the
flag file leaves the store unchanged and the run continues. -/
def mark_posted_today (e : HolidayEnv) (s : TrackerState) (t : String) : TrackerState :=
  if e.markFails then s else { flags := t :: s.flags }

/-- HOAPoster.run_holiday_workflow.  Returns the successor flag store, the
number of Facebook publish calls made, and the number of generation calls
made. -/
def run_holiday_workflow (e : HolidayEnv) (s : TrackerState) :
    TrackerState × Nat × Nat :=
  if e.shouldPost = false then (s, 0, 0)
  else if already_posted_today e s ("holiday") then (s, 0, 0)
  else
    match e.genResult with
    | none => (s, 0, 1)
    | some _ =>
      if e.postSucceeds then (mark_posted_today e s ("holiday"), 1, 1)
      else (s, 1, 1)

/-! ## Mailbox state after processing one message
(GmailHandler.mark_as_processed, main.py:249;
HOAPoster._process_meeting_minutes, main.py:935;
HOAPoster._process_facebook_post_request, main.py:1000) -/

/-- Gmail-side state of one message: its UNREAD flag, its INBOX flag, and
its user labels. -/
structure MsgFlags where
  unread : Bool
  inbox : Bool
  labels : List String
deriving DecidableEq

/-- GmailHandler.mark_as_processed: when the descriptive label could be
obtained or created, add it and remove UNREAD and INBOX; when the label
call failed, remove only UNREAD. -/
def mark_as_processed (labelResult : Option String) (m : MsgFlags) : MsgFlags :=
  match labelResult with
  | some l => { unread := false, inbox := false, labels := l :: m.labels }
  | none => { m with unread := false }

/-- Outcomes of the external calls one meeting-minutes message can
trigger: whether the full-message fetch succeeds, the composed post text
(none when generation failed), whether the Facebook post succeeds, and
the label id get_or_create_label would return. -/
structure MMEnv where
  fetchOk : Bool
  composeResult : Option String
  publishOk : Bool
  labelResult : Option String

/-- HOAPoster._process_meeting_minutes, restricted to its mailbox-state
and call-count effects.  Returns the message's successor flags, the
number of generation calls, and the number of publish calls. -/
def process_meeting_minutes (e : MMEnv) (m : MsgFlags) : MsgFlags × Nat × Nat :=
  if e.fetchOk = false then (m, 0, 0)
  else
    match e.composeResult with
    | none => (m, 1, 0)
    | some _ =>
      if e.publishOk then (mark_as_processed e.labelResult m, 1, 1)
      else (m, 1, 1)

/-- Outcomes of the external calls one post-request message can trigger;
approved is the verdict of is_approved_sender on the extracted sender. -/
structure PREnv where
  fetchOk : Bool
  approved : Bool
  composeResult : Option String
  publishOk : Bool
  labelResult : Option String

/-- HOAPoster._process_facebook_post_request, restricted to its
mailbox-state and call-count effects.  An unauthorized sender removes only
UNREAD and stops before any generation or publish. -/
def process_facebook_post_request (e : PREnv) (m : MsgFlags) : MsgFlags × Nat × Nat :=
  if e.fetchOk = false then (m, 0, 0)
  else if e.approved = false then ({ m with unread := false }, 0, 0)
  else
    match e.composeResult with
    | none => (m, 1, 0)
    | some _ =>
      if e.publishOk then (mark_as_processed e.labelResult m, 1, 1)
      else (m, 1, 1)

/-! ## Entry point (Config.validate, main.py:58, and main, main.py:1075) -/

/-- The five workflow kinds the orchestrator can run. -/
inductive WorkflowKind : Type where
  | holiday
  | event
  | meetingMinutes
  | postRequest
  | custom
deriving DecidableEq

/-- The configuration fields that Config.validate inspects, plus the run
mode selector. -/
structure ConfigSt where
  fb_token : Option String
  gemini_api_key : Option String
  run_mode : String

/-- Config.validate succeeds exactly when both required credentials are
present (it raises ValueError otherwise). -/
def validate (c : ConfigSt) : Bool :=
  c.fb_token.isSome && c.gemini_api_key.isSome

/-- The workflow sequence main executes for a given run mode: mode both
runs holiday, calendar (event), meeting minutes, facebook posts in that
order; each single mode runs its one workflow; an unknown mode runs
nothing. -/
def workflowsFor (mode : String) : List WorkflowKind :=
  if mode = ("both") then
    [WorkflowKind.holiday, WorkflowKind.event, WorkflowKind.meetingMinutes,
     WorkflowKind.postRequest]
  else if mode = ("calendar") then [WorkflowKind.event]
  else if mode = ("holidays") then [WorkflowKind.holiday]
  else if mode = ("meeting_minutes") then [WorkflowKind.meetingMinutes]
  else if mode = ("facebook_posts") then [WorkflowKind.postRequest]
  else if mode = ("custom") then [WorkflowKind.custom]
  else []

/-- main: HOAPoster.__init__ runs Config.validate before anything else; a
validation failure is caught and turned into sys.exit(1) with no workflow
run.  Returns the ordered list of workflows executed and the exit code. -/
def mainRun (c : ConfigSt) : List WorkflowKind × Nat :=
  if validate c then (workflowsFor c.run_mode, 0) else ([], 1)

/-! ## Theorems -/

/-- Helper: the length of a Python slice s[:n] is the minimum of n and the
length of s. -/
theorem strTake_length (s : String) (n : Nat) :
    (strTake s n).length = min n s.length := by
  show (s.toList.take n).length = min n s.length
  rw [List.length_take]
  rfl

/-- Claim C4: with an empty approved-sender set, is_approved_sender
returns false for every address and surfaces the warning; with a
non-empty set, an address (already whitespace-trimmed, as
extract_sender_email produces) is authorized exactly when its lower-cased,
trimmed form is literally one of the configured entries, with no warning
and no wildcarding. -/
theorem claim_C4 (approved : List String) (email : String) :
    ((is_approved_sender [] email).1 = false ∧ (is_approved_sender [] email).2 = true) ∧
    (approved ≠ [] → pyStrip email = email →
      (((is_approved_sender approved email).1 = true) ↔
        (((pyStrip email).map Char.toLower) ∈ approved)) ∧
      (is_approved_sender approved email).2 = false) := by
  constructor
  · constructor <;> rfl
  · intro hne htrim
    rw [htrim]
    constructor
    · simp [is_approved_sender, List.isEmpty_iff, hne, List.contains]
    · simp [is_approved_sender, List.isEmpty_iff, hne]

/-- Witness for claim C4 at a concrete configuration and address. -/
theorem claim_C4_witness :
    ((["board@hoa.org"] : List String) ≠ []) ∧
    (pyStrip ("Board@hoa.org") = ("Board@hoa.org")) ∧
    ((is_approved_sender (["board@hoa.org"]) ("Board@hoa.org")).1 = true ↔
      (((pyStrip ("Board@hoa.org")).map Char.toLower) ∈ (["board@hoa.org"] : List String))) := by
  refine ⟨by decide, by decide, ?_⟩
  exact ((claim_C4 (["board@hoa.org"]) ("Board@hoa.org")).2 (by decide) (by decide)).1

/-- Claim C6: meeting-minutes content longer than 8000 characters is
placed in the prompt as exactly its first 8000 characters followed by the
truncation marker, content of at most 8000 characters is placed unchanged,
and the email-derived prompt places exactly the first 3000 characters of
the body with no marker. -/
theorem claim_C6 (subject content body : String) (d : Bool) :
    (content.length > 8000 →
      mm_trunc content = strTake content 8000 ++ truncMarker ∧
      (strTake content 8000).length = 8000) ∧
    (content.length ≤ 8000 → mm_trunc content = content) ∧
    (mm_prompt subject d content = mmHead subject (content_type_tag d) ++ mm_trunc content ++ mmTail) ∧
    (fb_prompt subject body = fbHead subject ++ strTake body 3000 ++ fbTail) ∧
    ((strTake body 3000).length ≤ 3000) := by
  refine ⟨?_, ?_, rfl, rfl, ?_⟩
  · intro h
    refine ⟨by simp [mm_trunc, h], ?_⟩
    rw [strTake_length]
    omega
  · intro h
    simp [mm_trunc]
    omega
  · rw [strTake_length]
    omega

/-- Witness for claim C6: a 9000-character content string is truncated to
exactly its first 8000 characters plus the marker. -/
theorem claim_C6_witness :
    ((String.mk (List.replicate 9000 ('a'))).length > 8000) ∧
    (mm_trunc (String.mk (List.replicate 9000 ('a')))
        = strTake (String.mk (List.replicate 9000 ('a'))) 8000 ++ truncMarker ∧
      (strTake (String.mk (List.replicate 9000 ('a'))) 8000).length = 8000) := by
  have h : (String.mk (List.replicate 9000 ('a'))).length > 8000 := by
    show (List.replicate 9000 ('a')).length > 8000
    rw [List.length_replicate]
    omega
  exact ⟨h, (claim_C6 ("") (String.mk (List.replicate 9000 ('a'))) ("") false).1 h⟩

/-- Claim C8: with valid credentials and run mode both, main executes
exactly the sequence holiday, event, meeting minutes, post request with
exit code 0; a missing required credential yields exit code 1 with no
workflow executed. -/
theorem claim_C8 (c : ConfigSt) :
    (validate c = true → c.run_mode = ("both") →
      mainRun c = ([WorkflowKind.holiday, WorkflowKind.event,
        WorkflowKind.meetingMinutes, WorkflowKind.postRequest], 0)) ∧
    ((c.fb_token = none ∨ c.gemini_api_key = none) → mainRun c = ([], 1)) := by
  constructor
  · intro hv hm
    simp [mainRun, hv, workflowsFor, hm]
  · intro h
    have hv : validate c = false := by
      cases h with
      | inl h => simp [validate, h]
      | inr h => simp [validate, h]
    simp [mainRun, hv]

/-- Witness for claim C8 at concrete configurations. -/
theorem claim_C8_witness :
    (validate { fb_token := some ("t"), gemini_api_key := some ("g"), run_mode := "both" } = true) ∧
    (mainRun { fb_token := some ("t"), gemini_api_key := some ("g"), run_mode := "both" }
      = ([WorkflowKind.holiday, WorkflowKind.event, WorkflowKind.meetingMinutes,
          WorkflowKind.postRequest], 0)) ∧
    (mainRun { fb_token := none, gemini_api_key := some ("g"), run_mode := "both" } = ([], 1)) := by
  refine ⟨rfl, ?_, ?_⟩
  · exact (claim_C8 _).1 rfl rfl
  · exact (claim_C8 { fb_token := none, gemini_api_key := some ("g"), run_mode := "both" }).2
      (Or.inl rfl)

/-- Claim C9: the listing calls of the meeting-minutes and post-request
workflows omit the max_results argument, so the Gmail query is issued with
the default cap of 5 and each run sees at most the first 5 matching unread
messages. -/
theorem claim_C9 (ok : Bool) (matching : List Nat) :
    ((meeting_minutes_listing ok matching).length ≤ 5) ∧
    ((post_request_listing ok matching).length ≤ 5) ∧
    (meeting_minutes_listing true matching = matching.take 5) ∧
    (post_request_listing true matching = matching.take 5) := by
  refine ⟨?_, ?_, rfl, rfl⟩ <;>
    cases ok <;>
      simp [meeting_minutes_listing, post_request_listing, get_messages,
        List.length_take_le]

/-- Claim C1: on one process-local date, a first holiday run in which
generation and the publish both succeed makes exactly one publish call and
only then marks the kind; the immediately following second run observes
the mark, makes no generation call and no publish call; the store is never
marked when the publish fails; and a failure of the published-today check
itself degrades to treating the kind as not yet published. -/
theorem claim_C1 (e1 e2 : HolidayEnv) (s : TrackerState)
    (h0 : already_posted_today e1 s ("holiday") = false)
    (h1 : e1.shouldPost = true)
    (h2 : e1.genResult.isSome = true)
    (h3 : e1.postSucceeds = true)
    (h4 : e1.markFails = false)
    (h5 : e2.checkFails = false) :
    ((run_holiday_workflow e1 s).2.1 = 1) ∧
    ((run_holiday_workflow e2 (run_holiday_workflow e1 s).1).2.1 = 0) ∧
    ((run_holiday_workflow e2 (run_holiday_workflow e1 s).1).2.2 = 0) ∧
    (∀ e st, e.postSucceeds = false → (run_holiday_workflow e st).1 = st) ∧
    (∀ e st t, e.checkFails = true → already_posted_today e st t = false) := by
  obtain ⟨t, ht⟩ := Option.isSome_iff_exists.mp h2
  have hrun1 : run_holiday_workflow e1 s
      = (mark_posted_today e1 s ("holiday"), 1, 1) := by
    simp [run_holiday_workflow, h0, h1, ht, h3]
  have hflags : (run_holiday_workflow e1 s).1.flags = ("holiday") :: s.flags := by
    rw [hrun1]
    simp [mark_posted_today, h4]
  have hposted : already_posted_today e2 (run_holiday_workflow e1 s).1 ("holiday") = true := by
    simp [already_posted_today, h5, hflags, List.contains]
  refine ⟨by rw [hrun1], ?_, ?_, ?_, ?_⟩
  · generalize hg1 : (run_holiday_workflow e1 s).1 = s1 at hposted ⊢
    cases hsp : e2.shouldPost <;> simp [run_holiday_workflow, hsp, hposted]
  · generalize hg1 : (run_holiday_workflow e1 s).1 = s1 at hposted ⊢
    cases hsp : e2.shouldPost <;> simp [run_holiday_workflow, hsp, hposted]
  · intro e st hps
    cases hsp : e.shouldPost <;>
      cases hap : already_posted_today e st ("holiday") <;>
        cases hg : e.genResult <;>
          simp [run_holiday_workflow, hsp, hap, hg, hps]
  · intro e st t hcf
    simp [already_posted_today, hcf]

/-- Witness for claim C1 at a concrete pair of runs: the first run
publishes once, the second publishes nothing and generates nothing. -/
theorem claim_C1_witness :
    (already_posted_today
        { shouldPost := true, checkFails := false, markFails := false,
          genResult := some ("happy holiday"), postSucceeds := true }
        { flags := [] } ("holiday") = false) ∧
    ((run_holiday_workflow
        { shouldPost := true, checkFails := false, markFails := false,
          genResult := some ("happy holiday"), postSucceeds := true }
        { flags := [] }).2.1 = 1) ∧
    ((run_holiday_workflow
        { shouldPost := true, checkFails := false, markFails := false,
          genResult := some ("second try"), postSucceeds := true }
        (run_holiday_workflow
          { shouldPost := true, checkFails := false, markFails := false,
            genResult := some ("happy holiday"), postSucceeds := true }
          { flags := [] }).1).2.1 = 0) := by
  have h := claim_C1
    { shouldPost := true, checkFails := false, markFails := false,
      genResult := some ("happy holiday"), postSucceeds := true }
    { shouldPost := true, checkFails := false, markFails := false,
      genResult := some ("second try"), postSucceeds := true }
    { flags := [] } (by decide) rfl rfl rfl rfl rfl
  exact ⟨by decide, h.1, h.2.1⟩

/-- Claim C5: for a post request with a non-empty image list, upload is
attempted for exactly the first 10 images in order (failures individually
skipped); if no image uploads successfully the message is posted exactly
once as plain text and no combined media post is issued; if at least one
uploads, exactly one combined post is issued carrying all successfully
uploaded handles in order, and no plain-text post. -/
theorem claim_C5 (upl : Nat → Option Nat) (message : String)
    (images : List ImageRec) (hne : images ≠ []) :
    ((post_with_images upl message images).uploadsTried
        = (images.take 10).map (fun i => i.uid)) ∧
    ((∀ i ∈ images.take 10, upl i.uid = none) →
      (post_with_images upl message images).textPosts = [message] ∧
      (post_with_images upl message images).mediaPosts = []) ∧
    ((∃ i ∈ images.take 10, (upl i.uid).isSome = true) →
      (post_with_images upl message images).mediaPosts
        = [(message, (images.take 10).filterMap (fun i => upl i.uid))] ∧
      (post_with_images upl message images).textPosts = []) := by
  have hie : images.isEmpty = false := by
    simp [List.isEmpty_iff, hne]
  refine ⟨?_, ?_, ?_⟩
  · cases hup : ((images.take 10).filterMap (fun i => upl i.uid)).isEmpty <;>
      simp [post_with_images, hie, hup]
  · intro hall
    have hnil : (images.take 10).filterMap (fun i => upl i.uid) = [] := by
      rw [List.filterMap_eq_nil_iff]
      exact hall
    simp [post_with_images, hie, hnil]
  · intro hex
    obtain ⟨i, hi, hsome⟩ := hex
    have hnonnil : (images.take 10).filterMap (fun i => upl i.uid) ≠ [] := by
      intro hn
      rw [List.filterMap_eq_nil_iff] at hn
      rw [hn i hi] at hsome
      simp at hsome
    have hup : ((images.take 10).filterMap (fun i => upl i.uid)).isEmpty = false := by
      simp [List.isEmpty_iff, hnonnil]
    simp [post_with_images, hie, hup]

/-- Witness for claim C5: two images, the first upload fails and the
second returns handle 101; exactly one combined post carrying [101] is
issued and no plain-text post. -/
theorem claim_C5_witness :
    (([⟨"a.jpg", 0⟩, ⟨"b.jpg", 1⟩] : List ImageRec) ≠ []) ∧
    ((post_with_images (fun n => if n = 1 then some 101 else none) ("hello")
        ([⟨"a.jpg", 0⟩, ⟨"b.jpg", 1⟩])).textPosts = []) := by
  refine ⟨by decide, ?_⟩
  exact ((claim_C5 (fun n => if n = 1 then some 101 else none) ("hello")
      ([⟨"a.jpg", 0⟩, ⟨"b.jpg", 1⟩]) (by decide)).2.2
    ⟨⟨"b.jpg", 1⟩, by decide, by decide⟩).2

/-- Claim C3: if every attempt reports a rate-limit condition, generation
makes exactly 3 attempts with sleeps of 5 and 10 and returns absence; if
the attempts before index k are rate-limited and attempt k succeeds, its
text is returned immediately after k + 1 attempts; if attempt k fails with
a non-rate-limit condition, generation aborts immediately after k + 1
attempts and returns absence. -/
theorem claim_C3 (o : Nat → GenOutcome) :
    ((∀ n, o n = GenOutcome.rateLimit) → generate o = (none, 3, [5, 10])) ∧
    (∀ k t, k < 3 → (∀ j, j < k → o j = GenOutcome.rateLimit) →
      o k = GenOutcome.success t → generate o = (some t, k + 1, backoffSleeps k)) ∧
    (∀ k, k < 3 → (∀ j, j < k → o j = GenOutcome.rateLimit) →
      o k = GenOutcome.otherFail → generate o = (none, k + 1, backoffSleeps k)) := by
  have b0 : backoffSleeps 0 = [] := rfl
  have b1 : backoffSleeps 1 = [5] := rfl
  have b2 : backoffSleeps 2 = [5, 10] := rfl
  refine ⟨?_, ?_, ?_⟩
  · intro h
    simp [generate, generateLoop, h 0, h 1, h 2]
  · intro k t hk hb hs
    interval_cases k
    · simp [generate, generateLoop, hs, b0]
    · simp [generate, generateLoop, hb 0 (by omega), hs, b1]
    · simp [generate, generateLoop, hb 0 (by omega), hb 1 (by omega), hs, b2]
  · intro k hk hb hs
    interval_cases k
    · simp [generate, generateLoop, hs, b0]
    · simp [generate, generateLoop, hb 0 (by omega), hs, b1]
    · simp [generate, generateLoop, hb 0 (by omega), hb 1 (by omega), hs, b2]

/-- Witness for claim C3: a generator stub that always rate-limits makes
exactly 3 attempts, sleeps 5 then 10, and returns absence. -/
theorem claim_C3_witness :
    generate (fun _ => GenOutcome.rateLimit) = (none, 3, [5, 10]) :=
  (claim_C3 (fun _ => GenOutcome.rateLimit)).1 (fun _ => rfl)

/-- The environment of the counterexample for claim C2: the message fetch
succeeds, generation fails (compose returns absence), and the message is
processed by the meeting-minutes workflow; the claim requires the UNREAD
flag to be removed on this terminal outcome, but the code leaves the
mailbox untouched. -/
def c2Env : MMEnv :=
  { fetchOk := true, composeResult := none, publishOk := true,
    labelResult := some ("Meeting Minutes") }

/-- The initial mailbox state of the counterexample for claim C2: unread,
in the inbox, no labels. -/
def c2Msg : MsgFlags := { unread := true, inbox := true, labels := [] }

/-- Counterexample to claim C2: a failed compose is a terminal outcome for
the message in this run and is not an authorization rejection, yet the
code removes no flag at all — the UNREAD flag is still present afterwards,
where the claim requires it removed.  (One generation call was made, so
the outcome is a failed compose, not a skipped message.) -/
theorem claim_C2_counterexample :
    (process_meeting_minutes c2Env c2Msg).2.1 = 1 ∧
    (process_meeting_minutes c2Env c2Msg).2.2 = 0 ∧
    (process_meeting_minutes c2Env c2Msg).1.unread = true := by
  decide

/-- Claim C2 as amended: on a failed compose or a failed publish neither
workflow mutates the mailbox at all (the UNREAD flag included); the UNREAD
flag is removed on a successful publish; the INBOX flag changes only on a
successful publish with an obtainable label; and on an authorization
rejection the post-request workflow removes only the UNREAD flag and
performs no generation and no publish. -/
theorem claim_C2_amended (e : MMEnv) (f : PREnv) (m : MsgFlags) :
    (e.composeResult = none → (process_meeting_minutes e m).1 = m) ∧
    (e.publishOk = false → (process_meeting_minutes e m).1 = m) ∧
    (e.fetchOk = true → e.composeResult.isSome = true → e.publishOk = true →
      (process_meeting_minutes e m).1.unread = false) ∧
    ((process_meeting_minutes e m).1.inbox ≠ m.inbox →
      e.publishOk = true ∧ e.labelResult.isSome = true) ∧
    (f.fetchOk = true → f.approved = false →
      process_facebook_post_request f m = ({ m with unread := false }, 0, 0)) ∧
    (f.approved = true → f.composeResult = none →
      (process_facebook_post_request f m).1 = m) ∧
    (f.approved = true → f.publishOk = false →
      (process_facebook_post_request f m).1 = m) ∧
    (f.fetchOk = true → f.approved = true → f.composeResult.isSome = true →
      f.publishOk = true → (process_facebook_post_request f m).1.unread = false) ∧
    ((process_facebook_post_request f m).1.inbox ≠ m.inbox →
      f.publishOk = true ∧ f.labelResult.isSome = true) := by
  refine ⟨?_, ?_, ?_, ?_, ?_, ?_, ?_, ?_, ?_⟩
  · intro hc
    cases hf : e.fetchOk <;> simp [process_meeting_minutes, hf, hc]
  · intro hp
    cases hf : e.fetchOk <;> cases hc : e.composeResult <;>
      simp [process_meeting_minutes, hf, hc, hp]
  · intro hf hc hp
    obtain ⟨x, hx⟩ := Option.isSome_iff_exists.mp hc
    cases hl : e.labelResult <;>
      simp [process_meeting_minutes, hf, hx, hp, mark_as_processed, hl]
  · intro hne
    cases hf : e.fetchOk
    · simp [process_meeting_minutes, hf] at hne
    · cases hc : e.composeResult
      · simp [process_meeting_minutes, hf, hc] at hne
      · cases hp : e.publishOk
        · simp [process_meeting_minutes, hf, hc, hp] at hne
        · cases hl : e.labelResult
          · simp [process_meeting_minutes, hf, hc, hp, mark_as_processed, hl] at hne
          · exact ⟨rfl, by simp [hl]⟩
  · intro hf ha
    simp [process_facebook_post_request, hf, ha]
  · intro ha hc
    cases hf : f.fetchOk <;> simp [process_facebook_post_request, hf, ha, hc]
  · intro ha hp
    cases hf : f.fetchOk <;> cases hc : f.composeResult <;>
      simp [process_facebook_post_request, hf, ha, hc, hp]
  · intro hf ha hc hp
    obtain ⟨x, hx⟩ := Option.isSome_iff_exists.mp hc
    cases hl : f.labelResult <;>
      simp [process_facebook_post_request, hf, ha, hx, hp, mark_as_processed, hl]
  · intro hne
    cases hf : f.fetchOk
    · simp [process_facebook_post_request, hf] at hne
    · cases ha : f.approved
      · simp [process_facebook_post_request, hf, ha] at hne
      · cases hc : f.composeResult
        · simp [process_facebook_post_request, hf, ha, hc] at hne
        · cases hp : f.publishOk
          · simp [process_facebook_post_request, hf, ha, hc, hp] at hne
          · cases hl : f.labelResult
            · simp [process_facebook_post_request, hf, ha, hc, hp,
                mark_as_processed, hl] at hne
            · exact ⟨rfl, by simp [hl]⟩


/-- Witness for claim C2 as amended, at concrete environments: an
unauthorized post request removes only the UNREAD flag with no generation
and no publish, and a meeting-minutes publish failure leaves the mailbox
untouched. -/
theorem claim_C2_witness :
    (process_facebook_post_request
        { fetchOk := true, approved := false, composeResult := some ("p"),
          publishOk := true, labelResult := some ("Posted") }
        { unread := true, inbox := true, labels := [] }
      = ({ unread := false, inbox := true, labels := [] }, 0, 0)) ∧
    ((process_meeting_minutes
        { fetchOk := true, composeResult := some ("p"), publishOk := false,
          labelResult := some ("Meeting Minutes") }
        { unread := true, inbox := true, labels := [] }).1
      = { unread := true, inbox := true, labels := [] }) := by
  constructor
  · exact (claim_C2_amended
      { fetchOk := true, composeResult := some ("p"), publishOk := false,
        labelResult := some ("Meeting Minutes") }
      { fetchOk := true, approved := false, composeResult := some ("p"),
        publishOk := true, labelResult := some ("Posted") }
      { unread := true, inbox := true, labels := [] }).2.2.2.2.1 rfl rfl
  · exact (claim_C2_amended
      { fetchOk := true, composeResult := some ("p"), publishOk := false,
        labelResult := some ("Meeting Minutes") }
      { fetchOk := true, approved := false, composeResult := some ("p"),
        publishOk := true, labelResult := some ("Posted") }
      { unread := true, inbox := true, labels := [] }).2.1 rfl

/-- Helper: the top-level scan of extract_body returns exactly the first
direct child satisfying the text/plain-with-data condition. -/
theorem firstPlainTop_eq_find (l : List MimePart) :
    firstPlainTop l = (l.find? plainWithData).map MimePart.bodyData := by
  induction l with
  | nil => rfl
  | cons p ps ih =>
    cases hp : plainWithData p <;>
      simp [firstPlainTop, hp, List.find?_cons_of_pos, List.find?_cons_of_neg, ih]

/-- The message of the counterexample for claim C7: a multipart/mixed
payload with no body data of its own whose only child is a
multipart/alternative container holding a text/plain part with data. -/
def c7Nested : MimePart :=
  MimePart.mk ("multipart/mixed") ("")
    ([MimePart.mk ("multipart/alternative") ("")
      ([MimePart.mk ("text/plain") ("hello") ([])])])

/-- Counterexample to claim C7: on a payload whose only text/plain part
sits one level deeper than the direct children, the pre-order full-tree
traversal described by the claim finds the text, but extract_body scans
only the direct children and returns the empty string. -/
theorem claim_C7_counterexample :
    extract_body c7Nested = ("") ∧ specExtractBody c7Nested = ("hello") := by
  constructor
  · rfl
  · simp [specExtractBody, c7Nested, MimePart.subparts, specFirstPlainList,
      specFirstPlain]

/-- Claim C7 as amended: body extraction scans only the direct children of
the payload, returning the decoded data of the first direct child with
content type text/plain and non-empty data; when no such direct child
exists (in particular for a non-multipart message, which has no children)
it falls back to the payload's own single body data, which is the empty
string when absent; text/plain parts nested deeper in the tree are never
found. -/
theorem claim_C7_amended (payload : MimePart) :
    (extract_body payload
      = ((payload.subparts.find? plainWithData).map MimePart.bodyData).getD
          payload.bodyData) ∧
    (payload.subparts = [] → extract_body payload = payload.bodyData) ∧
    ((∀ p ∈ payload.subparts, plainWithData p = false) →
      payload.bodyData = ("") → extract_body payload = ("")) := by
  refine ⟨?_, ?_, ?_⟩
  · rw [extract_body, firstPlainTop_eq_find]
    cases payload.subparts.find? plainWithData <;> simp
  · intro h
    simp [extract_body, h, firstPlainTop]
  · intro hall hdat
    have hfind : payload.subparts.find? plainWithData = none := by
      rw [List.find?_eq_none]
      intro p hp
      simp [hall p hp]
    rw [extract_body, firstPlainTop_eq_find, hfind]
    simpa using hdat

/-- Witness for claim C7 as amended at a concrete non-multipart message:
extraction returns its single body. -/
theorem claim_C7_witness :
    ((MimePart.mk ("text/plain") ("solo body") ([])).subparts = []) ∧
    (extract_body (MimePart.mk ("text/plain") ("solo body") ([]))
      = (MimePart.mk ("text/plain") ("solo body") ([])).bodyData) :=
  ⟨rfl, (claim_C7_amended (MimePart.mk ("text/plain") ("solo body") ([]))).2.1 rfl⟩

/-- Claim C10: when the descriptive label cannot be obtained or created,
mark_as_processed removes only the UNREAD flag — the INBOX flag and the
label set are untouched — and the meeting-minutes workflow nevertheless
completes the item as a success (the publish happened and no failure path
is taken). -/
theorem claim_C10 (m : MsgFlags) (e : MMEnv) :
    (mark_as_processed none m = { m with unread := false }) ∧
    ((mark_as_processed none m).inbox = m.inbox) ∧
    ((mark_as_processed none m).labels = m.labels) ∧
    (e.fetchOk = true → e.composeResult.isSome = true → e.publishOk = true →
      e.labelResult = none →
      (process_meeting_minutes e m).1 = { m with unread := false } ∧
      (process_meeting_minutes e m).2.2 = 1) := by
  refine ⟨rfl, rfl, rfl, ?_⟩
  intro hf hc hp hl
  obtain ⟨x, hx⟩ := Option.isSome_iff_exists.mp hc
  constructor <;> simp [process_meeting_minutes, hf, hx, hp, hl, mark_as_processed]

/-- Witness for claim C10 at a concrete message and environment with a
failed label call: only UNREAD is cleared and the publish still counted. -/
theorem claim_C10_witness :
    ((process_meeting_minutes
        { fetchOk := true, composeResult := some ("post"), publishOk := true,
          labelResult := none }
        { unread := true, inbox := true, labels := [] }).1
      = { unread := false, inbox := true, labels := [] }) ∧
    ((process_meeting_minutes
        { fetchOk := true, composeResult := some ("post"), publishOk := true,
          labelResult := none }
        { unread := true, inbox := true, labels := [] }).2.2 = 1) :=
  (claim_C10 { unread := true, inbox := true, labels := [] }
    { fetchOk := true, composeResult := some ("post"), publishOk := true,
      labelResult := none }).2.2.2 rfl rfl rfl rfl

end HOA
